import Mathlib

/-!
Verification of the nutrition-aggregation core of the Capstone nutritional-planning
repository.  The executable aggregation logic of the repository lives in the n8n
code nodes of `n8n-nutritional-workflow/api-integration-examples.md` (the Hugging
Face, SageMaker and Google Vision integration variants); this file embeds those
code nodes shallowly, with JavaScript numbers modelled as exact rationals and
`Math.round` modelled exactly (round half towards positive infinity).
-/

/-- Per-100g nutrient record, the value shape of the `foodDatabase` lookup table of
the Hugging Face code node. -/
structure NutritionProfile where
  calories : ℚ
  protein : ℚ
  carbs : ℚ
  fat : ℚ
  fiber : ℚ
deriving DecidableEq

/-- The `foodDatabase` constant of the Hugging Face code node, transcribed entry for
entry from the source. -/
def foodDatabase : List (String × NutritionProfile) := [
    ("apple_pie", NutritionProfile.mk 237 2.4 34 11 1.6),
    ("baby_back_ribs", NutritionProfile.mk 355 32 0 25 0),
    ("baklava", NutritionProfile.mk 334 6 35 20 1.8),
    ("beef_carpaccio", NutritionProfile.mk 250 25 0 17 0),
    ("beef_tartare", NutritionProfile.mk 200 20 2 13 0),
    ("beet_salad", NutritionProfile.mk 43 1.6 10 0.2 2.8),
    ("beignets", NutritionProfile.mk 310 6 35 17 1.2),
    ("bibimbap", NutritionProfile.mk 350 15 45 12 4),
    ("bread_pudding", NutritionProfile.mk 320 8 45 12 2),
    ("breakfast_burrito", NutritionProfile.mk 400 20 35 20 3),
    ("bruschetta", NutritionProfile.mk 180 6 20 8 2),
    ("caesar_salad", NutritionProfile.mk 150 8 8 10 2),
    ("cannoli", NutritionProfile.mk 200 6 25 9 1),
    ("caprese_salad", NutritionProfile.mk 120 8 6 8 1),
    ("carrot_cake", NutritionProfile.mk 350 5 45 17 2),
    ("ceviche", NutritionProfile.mk 150 25 8 3 1),
    ("cheesecake", NutritionProfile.mk 320 6 30 20 1),
    ("cheese_plate", NutritionProfile.mk 250 15 2 20 0),
    ("chicken_curry", NutritionProfile.mk 300 25 15 18 3),
    ("chicken_quesadilla", NutritionProfile.mk 450 25 35 25 2),
    ("chicken_wings", NutritionProfile.mk 320 30 2 22 0),
    ("chocolate_cake", NutritionProfile.mk 400 6 50 20 3),
    ("chocolate_mousse", NutritionProfile.mk 280 6 25 18 2),
    ("churros", NutritionProfile.mk 300 4 35 16 1),
    ("clam_chowder", NutritionProfile.mk 200 15 20 8 2),
    ("club_sandwich", NutritionProfile.mk 500 30 35 25 3),
    ("crab_cakes", NutritionProfile.mk 250 20 8 15 1),
    ("creme_brulee", NutritionProfile.mk 300 6 25 20 0),
    ("croque_madame", NutritionProfile.mk 450 25 20 30 1),
    ("cup_cakes", NutritionProfile.mk 250 3 35 12 1),
    ("deviled_eggs", NutritionProfile.mk 150 12 2 10 0),
    ("donuts", NutritionProfile.mk 300 4 35 16 1),
    ("dumplings", NutritionProfile.mk 200 8 25 8 2),
    ("eggs_benedict", NutritionProfile.mk 400 20 15 30 1),
    ("escargots", NutritionProfile.mk 150 15 5 8 1),
    ("falafel", NutritionProfile.mk 200 8 25 8 4),
    ("filet_mignon", NutritionProfile.mk 300 30 0 20 0),
    ("fish_and_chips", NutritionProfile.mk 600 25 50 35 3),
    ("foie_gras", NutritionProfile.mk 400 8 2 40 0),
    ("french_fries", NutritionProfile.mk 320 4 40 16 3),
    ("french_onion_soup", NutritionProfile.mk 250 12 20 12 2),
    ("french_toast", NutritionProfile.mk 300 12 35 12 2),
    ("fried_calamari", NutritionProfile.mk 250 20 15 12 1),
    ("fried_rice", NutritionProfile.mk 300 10 45 8 2),
    ("frozen_yogurt", NutritionProfile.mk 150 4 25 4 0),
    ("garlic_bread", NutritionProfile.mk 200 6 25 8 1),
    ("gnocchi", NutritionProfile.mk 250 8 45 6 2),
    ("greek_salad", NutritionProfile.mk 180 8 12 12 3),
    ("grilled_cheese_sandwich", NutritionProfile.mk 400 15 30 25 2),
    ("grilled_salmon", NutritionProfile.mk 250 30 0 15 0),
    ("guacamole", NutritionProfile.mk 150 2 8 14 6),
    ("gyro", NutritionProfile.mk 350 20 25 20 2),
    ("hamburger", NutritionProfile.mk 500 25 35 30 2),
    ("hot_and_sour_soup", NutritionProfile.mk 100 8 10 3 1),
    ("hot_dog", NutritionProfile.mk 300 12 20 20 1),
    ("huevos_rancheros", NutritionProfile.mk 400 20 30 25 4),
    ("hummus", NutritionProfile.mk 200 8 20 10 6),
    ("ice_cream", NutritionProfile.mk 200 3 25 10 0),
    ("lasagna", NutritionProfile.mk 400 20 35 20 3),
    ("lobster_bisque", NutritionProfile.mk 300 15 15 20 1),
    ("lobster_roll_sandwich", NutritionProfile.mk 450 25 30 25 2),
    ("macaroni_and_cheese", NutritionProfile.mk 350 15 35 18 2),
    ("macarons", NutritionProfile.mk 150 3 25 5 1),
    ("miso_soup", NutritionProfile.mk 50 3 6 2 1),
    ("mussels", NutritionProfile.mk 150 20 5 6 0),
    ("nachos", NutritionProfile.mk 400 15 35 25 3),
    ("omelette", NutritionProfile.mk 250 18 2 18 0),
    ("onion_rings", NutritionProfile.mk 300 4 35 16 3),
    ("oysters", NutritionProfile.mk 100 12 4 4 0),
    ("pad_thai", NutritionProfile.mk 400 15 50 15 3),
    ("paella", NutritionProfile.mk 350 20 40 12 2),
    ("pancakes", NutritionProfile.mk 300 8 40 12 2),
    ("panna_cotta", NutritionProfile.mk 200 4 20 12 0),
    ("peking_duck", NutritionProfile.mk 400 30 5 30 0),
    ("pho", NutritionProfile.mk 300 20 30 8 2),
    ("pizza", NutritionProfile.mk 400 18 45 18 2),
    ("pork_chop", NutritionProfile.mk 300 30 0 20 0),
    ("poutine", NutritionProfile.mk 500 15 40 30 2),
    ("prime_rib", NutritionProfile.mk 400 35 0 28 0),
    ("pulled_pork_sandwich", NutritionProfile.mk 450 25 35 25 2),
    ("ramen", NutritionProfile.mk 400 20 45 15 3),
    ("ravioli", NutritionProfile.mk 300 15 35 12 2),
    ("red_velvet_cake", NutritionProfile.mk 350 5 45 16 2),
    ("risotto", NutritionProfile.mk 300 10 45 10 2),
    ("samosa", NutritionProfile.mk 200 6 25 8 2),
    ("sashimi", NutritionProfile.mk 150 25 0 5 0),
    ("scallops", NutritionProfile.mk 100 20 2 1 0),
    ("seaweed_salad", NutritionProfile.mk 50 2 8 1 2),
    ("shrimp_and_grits", NutritionProfile.mk 400 25 35 20 2),
    ("spaghetti_bolognese", NutritionProfile.mk 450 20 50 18 3),
    ("spaghetti_carbonara", NutritionProfile.mk 500 20 45 25 2),
    ("spring_rolls", NutritionProfile.mk 150 6 20 5 2),
    ("steak", NutritionProfile.mk 300 30 0 20 0),
    ("strawberry_shortcake", NutritionProfile.mk 300 5 45 12 2),
    ("sushi", NutritionProfile.mk 200 15 25 5 1),
    ("tacos", NutritionProfile.mk 250 15 20 12 3),
    ("takoyaki", NutritionProfile.mk 200 8 25 8 1),
    ("tiramisu", NutritionProfile.mk 300 6 35 15 1),
    ("tuna_tartare", NutritionProfile.mk 200 25 2 10 0),
    ("waffles", NutritionProfile.mk 300 8 40 12 2)
]

/-- Association-list lookup standing for the JavaScript property access
`foodDatabase[foodName]`, which yields `undefined` (here `none`) on a miss. -/
def lookupFood (name : String) : Option NutritionProfile :=
  (foodDatabase.find? (fun p => p.1 == name)).map (fun p => p.2)

/-- The inline default of the Hugging Face code node, used via
`foodDatabase[foodName] || ...` when the label is absent from the table. -/
def defaultNutrition : NutritionProfile := ⟨200, 10, 20, 8, 2⟩

/-- The value of `foodDatabase[foodName] || default`: the catalog profile when the
label is present, the inline default profile otherwise. -/
def nutritionFor (name : String) : NutritionProfile :=
  (lookupFood name).getD defaultNutrition

/-- JavaScript `Math.round`: nearest integer, halves towards positive infinity. -/
def jsRound (q : ℚ) : ℚ := (⌊q + 1 / 2⌋ : ℤ)

/-- The one-decimal rounding idiom `Math.round(x * 10) / 10` used by the code nodes. -/
def round1 (q : ℚ) : ℚ := jsRound (q * 10) / 10

/-- One recognition result of the Hugging Face inference API: a label and a
confidence score.  This is the element shape of the `results` array the code node
iterates over; it carries no mass estimate. -/
structure HFResult where
  label : String
  score : ℚ
deriving DecidableEq

/-- The retention test of the Hugging Face code node: `result.score > 0.1`
(comment in the source: confidence threshold). -/
def retained (r : HFResult) : Bool := decide (r.score > 0.1)

/-- The constant `const estimatedWeight = 150; // grams` of the Hugging Face code
node, assigned to every retained detection. -/
def estimatedWeight : ℚ := 150

/-- The `scaleFactor = estimatedWeight / 100` of the Hugging Face code node. -/
def scaleFactor : ℚ := estimatedWeight / 100

/-- The `foodData` object built per retained detection by the Hugging Face code
node. -/
structure FoodItem where
  name : String
  confidence : ℚ
  estimatedWeight : ℚ
  calories : ℚ
  protein : ℚ
  carbs : ℚ
  fat : ℚ
  fiber : ℚ
deriving DecidableEq

/-- Construction of `foodData` for one retained detection, field for field from the
source: display name with underscores replaced by spaces, the fixed estimated
weight, calories rounded to a whole number, the other nutrients rounded to one
decimal, all after scaling the per-100g profile by `scaleFactor`. -/
def mkFoodItem (r : HFResult) : FoodItem :=
  let nutrition := nutritionFor r.label
  { name := r.label.replace "_" " "
    confidence := r.score
    estimatedWeight := estimatedWeight
    calories := jsRound (nutrition.calories * scaleFactor)
    protein := round1 (nutrition.protein * scaleFactor)
    carbs := round1 (nutrition.carbs * scaleFactor)
    fat := round1 (nutrition.fat * scaleFactor)
    fiber := round1 (nutrition.fiber * scaleFactor) }

/-- The object returned by the Hugging Face code node (its `json` payload).  The
field list is exactly that of the source's return statement; `dietaryData` is the
pass-through user data, of a type this core never inspects. -/
structure HFOutput (α : Type) where
  identifiedFoods : List FoodItem
  totalCalories : ℚ
  totalProtein : ℚ
  totalCarbs : ℚ
  totalFat : ℚ
  totalFiber : ℚ
  dietaryData : α
  imageProcessed : Bool
deriving DecidableEq

/-- The processing loop and return statement of the Hugging Face code node: keep
the detections passing the confidence test, build a `foodData` item for each,
accumulate the per-item (already rounded) figures into the totals, and round the
gram totals once more to one decimal in the returned object.  `totalCalories` is
returned as accumulated. -/
def processResults {α : Type} (dietaryData : α) (results : List HFResult) :
    HFOutput α :=
  let identifiedFoods := (results.filter retained).map mkFoodItem
  { identifiedFoods := identifiedFoods
    totalCalories := (identifiedFoods.map FoodItem.calories).sum
    totalProtein := round1 ((identifiedFoods.map FoodItem.protein).sum)
    totalCarbs := round1 ((identifiedFoods.map FoodItem.carbs).sum)
    totalFat := round1 ((identifiedFoods.map FoodItem.fat).sum)
    totalFiber := round1 ((identifiedFoods.map FoodItem.fiber).sum)
    dietaryData := dietaryData
    imageProcessed := true }

/-- The property names of the object literal returned by the Hugging Face code
node, in source order. -/
def hfReturnKeys : List String :=
  ["identifiedFoods", "totalCalories", "totalProtein", "totalCarbs",
   "totalFat", "totalFiber", "dietaryData", "imageProcessed"]

/-- Minimal JavaScript expression fragment, enough to transcribe the retention
condition of the Hugging Face code node as it is written. -/
inductive JsExpr where
  | num (value : ℚ)
  | ident (name : String)
  | member (obj : JsExpr) (field : String)
  | gt (lhs rhs : JsExpr)
deriving DecidableEq

/-- Whether a JavaScript expression is a numeric literal. -/
def JsExpr.isNumLiteral : JsExpr → Bool
  | .num _ => true
  | _ => false

/-- The retention condition as written in the source: `result.score > 0.1`. -/
def hfRetentionCondition : JsExpr :=
  .gt (.member (.ident "result") "score") (.num 0.1)

/-- The right operand of the retention comparison, i.e. the threshold expression. -/
def hfThresholdOperand : JsExpr :=
  match hfRetentionCondition with
  | .gt _ rhs => rhs
  | e => e

/-- The default profile of the `getNutritionalData` helper of the SageMaker code
node. -/
def sagemakerDefault : NutritionProfile := ⟨200, 10, 20, 8, 2⟩

/-- The `getNutritionalData` helper of the SageMaker code node: look the label up
in the same food database, fall back to the default on a miss, scale by
`portionSize / 100` and round each field as the Hugging Face node does. -/
def sagemakerGetNutritionalData (foodName : String) (portionSize : ℚ) :
    NutritionProfile :=
  let nutrition := (lookupFood foodName).getD sagemakerDefault
  let sf := portionSize / 100
  ⟨jsRound (nutrition.calories * sf), round1 (nutrition.protein * sf),
   round1 (nutrition.carbs * sf), round1 (nutrition.fat * sf),
   round1 (nutrition.fiber * sf)⟩

/-- The default profile of the `getNutritionalData` helper of the Google Vision
code node. -/
def googleVisionDefault : NutritionProfile := ⟨200, 10, 20, 8, 2⟩

/-- The `getNutritionalData` helper of the Google Vision code node, textually the
same function as the SageMaker one. -/
def googleVisionGetNutritionalData (foodName : String) (portionSize : ℚ) :
    NutritionProfile :=
  let nutrition := (lookupFood foodName).getD googleVisionDefault
  let sf := portionSize / 100
  ⟨jsRound (nutrition.calories * sf), round1 (nutrition.protein * sf),
   round1 (nutrition.carbs * sf), round1 (nutrition.fat * sf),
   round1 (nutrition.fiber * sf)⟩

/-- Sex argument of the planner's BMR computation. -/
inductive Gender where
  | male
  | female
deriving DecidableEq

/-- Modelled from the spec: `calculate_bmr` of the `DietaryPlanner` Python service.
The service itself is not under src; the repository holds only its declaration and
docstring (CONTRIBUTING.md), its unit test asserting `1690 <= bmr <= 1710` for
`calculate_bmr(75, 175, 30, male)`, and the documented Mifflin-St Jeor formula
(README, PROJECT_SUMMARY, COMPLETION_REPORT and the workflow guide):
BMR = 10 x weight_kg + 6.25 x height_cm - 5 x age_years, plus 5 for men and
minus 161 for women. -/
def calculate_bmr (weight height age : ℚ) (gender : Gender) : ℚ :=
  10 * weight + 6.25 * height - 5 * age +
    (match gender with
     | Gender.male => 5
     | Gender.female => -161)

/-- Reading of the spec's rounding invariant for the calorie total, for comparison
with the code: sum the unrounded scaled per-item calories of the retained
detections and round once at the return boundary. -/
def boundaryOnlyTotalCalories (results : List HFResult) : ℚ :=
  jsRound (((results.filter retained).map
    (fun r => (nutritionFor r.label).calories * scaleFactor)).sum)

/-- Dropping a detection that fails the retention test leaves the whole output
unchanged, wherever it sits in the list. -/
theorem processResults_drop {α : Type} (d : α) (pre post : List HFResult)
    (r : HFResult) (h : retained r = false) :
    processResults d (pre ++ r :: post) = processResults d (pre ++ post) := by
  simp [processResults, List.filter_append, List.filter_cons, h]


/-- Claim C1, counterexample: at weight 75 kg, height 175 cm, age 30, sex male the
Mifflin-St Jeor formula gives 1698.75, not the 1738.75 the claim states
(10 x 75 + 6.25 x 175 - 5 x 30 + 5 = 750 + 1093.75 - 150 + 5 = 1698.75). -/
theorem c1_counterexample :
    calculate_bmr 75 175 30 Gender.male = 1698.75 ∧
    calculate_bmr 75 175 30 Gender.male ≠ 1738.75 := by
  constructor
  · norm_num [calculate_bmr]
  · norm_num [calculate_bmr]

/-- Claim C1 (amended): the planner computes BMR by the Mifflin-St Jeor equation
exactly, and for weight 75 kg, height 175 cm, age 30, sex male the computed BMR is
1698.75, inside the 1690..1710 range the repository's unit test asserts. -/
theorem c1_bmr_formula (w h a : ℚ) :
    calculate_bmr w h a Gender.male = 10 * w + 6.25 * h - 5 * a + 5 ∧
    calculate_bmr w h a Gender.female = 10 * w + 6.25 * h - 5 * a - 161 ∧
    calculate_bmr 75 175 30 Gender.male = 1698.75 ∧
    1690 ≤ calculate_bmr 75 175 30 Gender.male ∧
    calculate_bmr 75 175 30 Gender.male ≤ 1710 := by
  refine ⟨rfl, by simp only [calculate_bmr]; ring, ?_, ?_, ?_⟩ <;> norm_num [calculate_bmr]

/-- Claim C2, counterexample: the Hugging Face code node rounds each item's
calories to a whole number before accumulating, so for two detections whose raw
scaled calories are 355.5 and 532.5 the returned total is 356 + 533 = 889, while
rounding only at the return boundary would give 888; the per-item value 356 itself
differs from the raw scaled 355.5. -/
theorem c2_counterexample :
    (processResults () [HFResult.mk "apple_pie" 0.9,
        HFResult.mk "baby_back_ribs" 0.9]).totalCalories = 889 ∧
    boundaryOnlyTotalCalories [HFResult.mk "apple_pie" 0.9,
        HFResult.mk "baby_back_ribs" 0.9] = 888 ∧
    (mkFoodItem (HFResult.mk "apple_pie" 0.9)).calories
      ≠ (nutritionFor "apple_pie").calories * scaleFactor := by
  have h1 : lookupFood "apple_pie" = some (NutritionProfile.mk 237 2.4 34 11 1.6) := by
    simp [lookupFood, foodDatabase, List.find?]
  have h2 : lookupFood "baby_back_ribs" = some (NutritionProfile.mk 355 32 0 25 0) := by
    simp [lookupFood, foodDatabase, List.find?]
  refine ⟨?_, ?_, ?_⟩ <;>
    norm_num [processResults, boundaryOnlyTotalCalories, mkFoodItem, retained,
      nutritionFor, h1, h2, scaleFactor, estimatedWeight, jsRound, round1]

/-- Claim C2 (amended): the returned calorie total is exactly the sum of the
retained items' calories, but each item's calories has already been rounded to the
nearest whole number before the summation, so rounding happens per item rather
than only at the return boundary. -/
theorem c2_additivity {α : Type} (d : α) (results : List HFResult) :
    (processResults d results).totalCalories
        = ((processResults d results).identifiedFoods.map FoodItem.calories).sum ∧
    (processResults d results).identifiedFoods.map FoodItem.calories
        = (results.filter retained).map
            (fun r => jsRound ((nutritionFor r.label).calories * scaleFactor)) := by
  constructor
  · rfl
  · simp [processResults, mkFoodItem, List.map_map, Function.comp]

/-- Claim C3: each retained detection's per-100g profile — all five nutrient
fields — is scaled by that detection's estimated mass divided by 100 (in this
integration path the estimated mass recorded for every detection is the fixed
`estimatedWeight`) before entering the item list, and every total is the sum of
exactly those scaled per-item values. -/
theorem c3_mass_scaling {α : Type} (d : α) (results : List HFResult) :
    ((processResults d results).identifiedFoods.map FoodItem.calories
        = (results.filter retained).map
            (fun r => jsRound ((nutritionFor r.label).calories * (estimatedWeight / 100))) ∧
     (processResults d results).identifiedFoods.map FoodItem.protein
        = (results.filter retained).map
            (fun r => round1 ((nutritionFor r.label).protein * (estimatedWeight / 100))) ∧
     (processResults d results).identifiedFoods.map FoodItem.carbs
        = (results.filter retained).map
            (fun r => round1 ((nutritionFor r.label).carbs * (estimatedWeight / 100))) ∧
     (processResults d results).identifiedFoods.map FoodItem.fat
        = (results.filter retained).map
            (fun r => round1 ((nutritionFor r.label).fat * (estimatedWeight / 100))) ∧
     (processResults d results).identifiedFoods.map FoodItem.fiber
        = (results.filter retained).map
            (fun r => round1 ((nutritionFor r.label).fiber * (estimatedWeight / 100)))) ∧
    (processResults d results).totalCalories
        = ((results.filter retained).map
            (fun r => jsRound ((nutritionFor r.label).calories * (estimatedWeight / 100)))).sum ∧
    (processResults d results).totalProtein
        = round1 (((results.filter retained).map
            (fun r => round1 ((nutritionFor r.label).protein * (estimatedWeight / 100)))).sum) ∧
    (processResults d results).totalCarbs
        = round1 (((results.filter retained).map
            (fun r => round1 ((nutritionFor r.label).carbs * (estimatedWeight / 100)))).sum) ∧
    (processResults d results).totalFat
        = round1 (((results.filter retained).map
            (fun r => round1 ((nutritionFor r.label).fat * (estimatedWeight / 100)))).sum) ∧
    (processResults d results).totalFiber
        = round1 (((results.filter retained).map
            (fun r => round1 ((nutritionFor r.label).fiber * (estimatedWeight / 100)))).sum) := by
  have hcal : (processResults d results).identifiedFoods.map FoodItem.calories
      = (results.filter retained).map
          (fun r => jsRound ((nutritionFor r.label).calories * (estimatedWeight / 100))) := by
    simp [processResults, mkFoodItem, scaleFactor, List.map_map, Function.comp]
  have hpro : (processResults d results).identifiedFoods.map FoodItem.protein
      = (results.filter retained).map
          (fun r => round1 ((nutritionFor r.label).protein * (estimatedWeight / 100))) := by
    simp [processResults, mkFoodItem, scaleFactor, List.map_map, Function.comp]
  have hcar : (processResults d results).identifiedFoods.map FoodItem.carbs
      = (results.filter retained).map
          (fun r => round1 ((nutritionFor r.label).carbs * (estimatedWeight / 100))) := by
    simp [processResults, mkFoodItem, scaleFactor, List.map_map, Function.comp]
  have hfat : (processResults d results).identifiedFoods.map FoodItem.fat
      = (results.filter retained).map
          (fun r => round1 ((nutritionFor r.label).fat * (estimatedWeight / 100))) := by
    simp [processResults, mkFoodItem, scaleFactor, List.map_map, Function.comp]
  have hfib : (processResults d results).identifiedFoods.map FoodItem.fiber
      = (results.filter retained).map
          (fun r => round1 ((nutritionFor r.label).fiber * (estimatedWeight / 100))) := by
    simp [processResults, mkFoodItem, scaleFactor, List.map_map, Function.comp]
  refine ⟨⟨hcal, hpro, hcar, hfat, hfib⟩, ?_, ?_, ?_, ?_, ?_⟩
  · show ((processResults d results).identifiedFoods.map FoodItem.calories).sum = _
    rw [hcal]
  · show round1 (((processResults d results).identifiedFoods.map FoodItem.protein).sum) = _
    rw [hpro]
  · show round1 (((processResults d results).identifiedFoods.map FoodItem.carbs).sum) = _
    rw [hcar]
  · show round1 (((processResults d results).identifiedFoods.map FoodItem.fat).sum) = _
    rw [hfat]
  · show round1 (((processResults d results).identifiedFoods.map FoodItem.fiber).sum) = _
    rw [hfib]

/-- Claim C4 (code bug witness): the Hugging Face code node performs no allergen
check at all.  For a retained cheesecake detection and a user whose dietary data
declares a dairy allergy, the returned object is exactly the record below — the
user data is passed through untouched, the eight returned fields are the ones
listed in `hfReturnKeys`, and no field of the return object is an allergy-warning
collection, although the repository's documentation promises an
`allergy_warnings` list in the analysis output. -/
theorem c4_no_allergen_warnings :
    processResults "user allergic to dairy" [HFResult.mk "cheesecake" 0.9]
      = HFOutput.mk [FoodItem.mk ("cheesecake".replace "_" " ") 0.9 150 480 9 45 30 1.5]
          480 9 45 30 1.5 "user allergic to dairy" true ∧
    hfReturnKeys = ["identifiedFoods", "totalCalories", "totalProtein", "totalCarbs",
        "totalFat", "totalFiber", "dietaryData", "imageProcessed"] ∧
    "allergy_warnings" ∉ hfReturnKeys ∧ "allergyWarnings" ∉ hfReturnKeys := by
  have h1 : lookupFood "cheesecake" = some (NutritionProfile.mk 320 6 30 20 1) := by
    simp [lookupFood, foodDatabase, List.find?]
  refine ⟨?_, rfl, ?_, ?_⟩
  · norm_num [processResults, mkFoodItem, retained, nutritionFor, h1,
      scaleFactor, estimatedWeight, jsRound, round1]
  · simp [hfReturnKeys]
  · simp [hfReturnKeys]

/-- Claim C5, counterexample: the threshold in the source's retention condition
`result.score > 0.1` is the inline numeric literal 0.1, not a reference to a named
constant. -/
theorem c5_counterexample :
    hfThresholdOperand = JsExpr.num 0.1 ∧
    hfThresholdOperand.isNumLiteral = true ∧
    ¬ ∃ constName, hfThresholdOperand = JsExpr.ident constName := by
  refine ⟨rfl, rfl, ?_⟩
  rintro ⟨n, hn⟩
  rw [show hfThresholdOperand = JsExpr.num 0.1 from rfl] at hn
  exact JsExpr.noConfusion hn

/-- Claim C5 (amended): every detection whose confidence is below the 0.10
threshold is discarded before aggregation and contributes nothing to the item list
or the totals; the threshold is written as the inline literal 0.1 in the
comparison, not as a named constant. -/
theorem c5_below_threshold_discarded {α : Type} (d : α) (pre post : List HFResult)
    (r : HFResult) (h : r.score < 0.1) :
    processResults d (pre ++ r :: post) = processResults d (pre ++ post) ∧
    hfThresholdOperand = JsExpr.num 0.1 := by
  refine ⟨processResults_drop d pre post r ?_, rfl⟩
  exact decide_eq_false (not_lt.mpr (le_of_lt h))

/-- Witness for claim C5 at a concrete input: a detection with confidence 0.05 in
the middle of a list changes nothing about the output. -/
theorem c5_witness :
    processResults "user data" ([] ++ HFResult.mk "hamburger" 0.05
        :: [HFResult.mk "pizza" 0.9])
      = processResults "user data" ([] ++ [HFResult.mk "pizza" 0.9]) ∧
    hfThresholdOperand = JsExpr.num 0.1 :=
  c5_below_threshold_discarded "user data" [] [HFResult.mk "pizza" 0.9]
    (HFResult.mk "hamburger" 0.05) (by norm_num)

/-- Claim C6: when a retained detection's label is absent from the nutrition
table, the inline default profile is substituted, and the detection still becomes
an item of the (total, always defined) aggregation output — a lookup miss never
aborts the analysis. -/
theorem c6_lookup_miss_default {α : Type} (d : α) (label : String) (s : ℚ)
    (results : List HFResult)
    (hmiss : lookupFood label = none) (hret : retained (HFResult.mk label s) = true)
    (hmem : HFResult.mk label s ∈ results) :
    nutritionFor label = defaultNutrition ∧
    mkFoodItem (HFResult.mk label s) ∈ (processResults d results).identifiedFoods := by
  constructor
  · simp [nutritionFor, hmiss]
  · show mkFoodItem (HFResult.mk label s) ∈ (results.filter retained).map mkFoodItem
    exact List.mem_map_of_mem mkFoodItem (List.mem_filter.mpr ⟨hmem, hret⟩)

/-- Witness for claim C6 at a concrete input: the label quinoa salad is not in the
database, yet its detection is aggregated using the default profile. -/
theorem c6_witness :
    nutritionFor "quinoa_salad" = defaultNutrition ∧
    mkFoodItem (HFResult.mk "quinoa_salad" 0.9)
      ∈ (processResults "user data" [HFResult.mk "quinoa_salad" 0.9]).identifiedFoods :=
  c6_lookup_miss_default "user data" "quinoa_salad" 0.9
    [HFResult.mk "quinoa_salad" 0.9]
    (by simp [lookupFood, foodDatabase, List.find?])
    (by norm_num [retained]) (by simp)

/-- Claim C7, counterexample: on the empty detection list the code node does
return all-zero totals and an empty item list, but it returns no warning list at
all — the returned object's properties are exactly the eight of `hfReturnKeys`,
and none of them is an allergy-warning list (the documentation's name for that
field, `allergy_warnings`, is absent). -/
theorem c7_counterexample :
    processResults () ([] : List HFResult) = HFOutput.mk [] 0 0 0 0 0 () true ∧
    "allergy_warnings" ∉ hfReturnKeys ∧ "allergyWarnings" ∉ hfReturnKeys ∧
    "warnings" ∉ hfReturnKeys := by
  refine ⟨?_, ?_, ?_, ?_⟩
  · norm_num [processResults, round1, jsRound]
  · simp [hfReturnKeys]
  · simp [hfReturnKeys]
  · simp [hfReturnKeys]

/-- Claim C7 (amended): applying the aggregation to an empty detection list yields
an empty item list and all-zero totals, with the user data passed through; the
computation is total, so no error is raised (the output simply has no warning-list
field to be empty, as no integration variant emits warnings). -/
theorem c7_empty_detections {α : Type} (d : α) :
    processResults d [] = HFOutput.mk [] 0 0 0 0 0 d true := by
  norm_num [processResults, round1, jsRound]

/-- Claim C8: a detection whose confidence equals the threshold 0.1 exactly fails
the strict comparison, is discarded, and contributes nothing to the output. -/
theorem c8_exact_threshold_excluded {α : Type} (d : α) (label : String)
    (pre post : List HFResult) :
    retained (HFResult.mk label 0.1) = false ∧
    processResults d (pre ++ HFResult.mk label 0.1 :: post)
      = processResults d (pre ++ post) := by
  have h : retained (HFResult.mk label 0.1) = false :=
    decide_eq_false (lt_irrefl (0.1 : ℚ))
  exact ⟨h, processResults_drop d pre post _ h⟩

/-- Claim C9: in the Hugging Face integration path every aggregated item records
the fixed portion mass of 150 grams, and the portion scale factor is the constant
150 / 100 = 1.5, the same for every food. -/
theorem c9_fixed_portion {α : Type} (d : α) (results : List HFResult)
    (item : FoodItem) (hmem : item ∈ (processResults d results).identifiedFoods) :
    item.estimatedWeight = 150 ∧ scaleFactor = 150 / 100 ∧ scaleFactor = 1.5 := by
  refine ⟨?_, rfl, by norm_num [scaleFactor, estimatedWeight]⟩
  have hmem2 : item ∈ (results.filter retained).map mkFoodItem := hmem
  obtain ⟨r, _, rfl⟩ := List.mem_map.mp hmem2
  rfl

/-- Witness for claim C9 at a concrete input: the single aggregated pizza item
records 150 grams. -/
theorem c9_witness :
    (mkFoodItem (HFResult.mk "pizza" 0.9)).estimatedWeight = 150 ∧
    scaleFactor = 150 / 100 ∧ scaleFactor = 1.5 :=
  c9_fixed_portion "user data" [HFResult.mk "pizza" 0.9]
    (mkFoodItem (HFResult.mk "pizza" 0.9))
    (by
      show mkFoodItem (HFResult.mk "pizza" 0.9)
        ∈ ([HFResult.mk "pizza" 0.9].filter retained).map mkFoodItem
      have : retained (HFResult.mk "pizza" 0.9) = true := by norm_num [retained]
      simp [this])

/-- Claim C10: the default profile substituted on a nutrition-table miss is
exactly calories 200, protein 10, carbs 20, fat 8, fiber 2 per 100 g in each of
the Hugging Face, SageMaker and Google Vision variants, and on a miss the helper
applies to it exactly the portion scaling and rounding it applies to catalog
entries. -/
theorem c10_default_profile (foodName : String) (portionSize : ℚ)
    (hmiss : lookupFood foodName = none) :
    defaultNutrition = NutritionProfile.mk 200 10 20 8 2 ∧
    sagemakerDefault = defaultNutrition ∧
    googleVisionDefault = defaultNutrition ∧
    sagemakerGetNutritionalData foodName portionSize
      = NutritionProfile.mk (jsRound (defaultNutrition.calories * (portionSize / 100)))
          (round1 (defaultNutrition.protein * (portionSize / 100)))
          (round1 (defaultNutrition.carbs * (portionSize / 100)))
          (round1 (defaultNutrition.fat * (portionSize / 100)))
          (round1 (defaultNutrition.fiber * (portionSize / 100))) ∧
    googleVisionGetNutritionalData foodName portionSize
      = sagemakerGetNutritionalData foodName portionSize ∧
    (mkFoodItem (HFResult.mk foodName 0.9)).calories
      = jsRound (defaultNutrition.calories * scaleFactor) := by
  refine ⟨rfl, rfl, rfl, ?_, ?_, ?_⟩
  · simp [sagemakerGetNutritionalData, hmiss, sagemakerDefault, defaultNutrition]
  · simp [sagemakerGetNutritionalData, googleVisionGetNutritionalData, hmiss,
      sagemakerDefault, googleVisionDefault]
  · simp [mkFoodItem, nutritionFor, hmiss]

/-- Witness for claim C10 at a concrete input: the label quinoa bowl misses the
table in every variant and receives the shared default, scaled for a 250 g
portion by the SageMaker and Google Vision helpers. -/
theorem c10_witness :
    defaultNutrition = NutritionProfile.mk 200 10 20 8 2 ∧
    sagemakerDefault = defaultNutrition ∧
    googleVisionDefault = defaultNutrition ∧
    sagemakerGetNutritionalData "quinoa_bowl" 250
      = NutritionProfile.mk (jsRound (defaultNutrition.calories * (250 / 100)))
          (round1 (defaultNutrition.protein * (250 / 100)))
          (round1 (defaultNutrition.carbs * (250 / 100)))
          (round1 (defaultNutrition.fat * (250 / 100)))
          (round1 (defaultNutrition.fiber * (250 / 100))) ∧
    googleVisionGetNutritionalData "quinoa_bowl" 250
      = sagemakerGetNutritionalData "quinoa_bowl" 250 ∧
    (mkFoodItem (HFResult.mk "quinoa_bowl" 0.9)).calories
      = jsRound (defaultNutrition.calories * scaleFactor) :=
  c10_default_profile "quinoa_bowl" 250 (by simp [lookupFood, foodDatabase, List.find?])
